import Mathlib

/-!
# Verification of the unmanic configuration subsystem and table-query contract

Shallow embedding of `unmanic/config.py`, the request schemas in
`unmanic/webserver/api_v2/schema/schemas.py` and the bulk plugin mutation
handlers in `unmanic/webserver/api_v2/plugins_api.py`.

The `Config` object's instance dictionary (`self.__dict__`) is modelled as an
association list from attribute names to configuration values (`Snapshot`):
Python dict assignment replaces the value at an existing key in place and
appends a fresh key at the end, which is exactly what `setattr` below does.
File-system effects (the settings-file rewrite performed by
`__write_settings_to_file`) are modelled by counting write attempts and by a
`writeOk` parameter deciding whether the write raises; a raised exception is
the `raised` flag of a `SetResult`.
-/

set_option autoImplicit false

/-- A Python value stored in a configuration field: the declared fields hold
strings (including filesystem paths), integers and booleans. -/
inductive CVal where
  | str (s : String)
  | int (n : Int)
  | bool (b : Bool)
deriving Repr, DecidableEq

/-- The `Config` instance dictionary: attribute name ↦ current value,
in insertion order. -/
abbrev Snapshot := List (String × CVal)

/-- Association-list lookup (Python dict subscript / `getattr`). -/
def alookup {α : Type} : List (String × α) → String → Option α
  | [], _ => none
  | (k', v) :: rest, k => if k' = k then some v else alookup rest k

/-- `Config.get_config_keys` / `Config.get_config_as_dict().keys()`:
the attribute names of the instance dictionary, in insertion order. -/
def get_config_keys (c : Snapshot) : List String := c.map Prod.fst

/-- Python attribute assignment `setattr(self, key, value)`: replace the value
at an existing key in place, otherwise append the new key at the end. -/
def setattr : Snapshot → String → CVal → Snapshot
  | [], k, v => [(k, v)]
  | (k', w) :: rest, k, v =>
    if k' = k then (k, v) :: rest else (k', w) :: setattr rest k v

/-- Outcome of a mutating `Config` call: the resulting instance dictionary,
how many settings-file rewrites were attempted, and whether an exception
propagated to the caller. -/
structure SetResult where
  snapshot : Snapshot
  writes   : Nat
  raised   : Bool
deriving Repr, DecidableEq

/-- Python's `str.lower()` for the ASCII keys used here, written so the
kernel can evaluate it. -/
def pyLower (s : String) : String := ⟨s.data.map Char.toLower⟩

/-- `Config.set_config_item(key, value, save_settings)`.

The source lower-cases the key (`field_id = key.lower()`) and returns silently
when `field_id` is not among `get_config_keys()`; otherwise it assigns the
value with `setattr(self, key, value)` — note: the original `key`, not
`field_id` — and, when `save_settings` is true, calls
`__write_settings_to_file`, which raises when the dump fails (`writeOk`
models whether `common.json_dump_to_file` succeeds). -/
def set_config_item (writeOk : Bool) (cfg : Snapshot) (key : String) (value : CVal)
    (save_settings : Bool) : SetResult :=
  if pyLower key ∈ get_config_keys cfg then
    if save_settings then ⟨setattr cfg key value, 1, !writeOk⟩
    else ⟨setattr cfg key value, 0, false⟩
  else ⟨cfg, 0, false⟩

/-- The loop body of `Config.set_bulk_config_items`: walk the captured
`config_keys` list, and for each key present in `items` call
`set_config_item`; an exception raised by a save aborts the loop (and
propagates). `w` accumulates the number of file rewrites attempted. -/
def set_bulk_go (writeOk : Bool) (items : List (String × CVal)) (save : Bool) :
    List String → Snapshot → Nat → SetResult
  | [], cfg, w => ⟨cfg, w, false⟩
  | k :: rest, cfg, w =>
    match alookup items k with
    | some v =>
      let r := set_config_item writeOk cfg k v save
      if r.raised then ⟨r.snapshot, w + r.writes, true⟩
      else set_bulk_go writeOk items save rest r.snapshot (w + r.writes)
    | none => set_bulk_go writeOk items save rest cfg w

/-- `Config.set_bulk_config_items(items, save_settings)`: iterates over
`config_keys = self.get_config_keys()` and calls `set_config_item` for every
key that exists in `items`, forwarding `save_settings` to each call. -/
def set_bulk_config_items (writeOk : Bool) (cfg : Snapshot) (items : List (String × CVal))
    (save_settings : Bool) : SetResult :=
  set_bulk_go writeOk items save_settings (get_config_keys cfg) cfg 0

/-- `Config.__import_settings_from_env`: for every current configuration key
found in `os.environ`, assign the raw environment string (no save). -/
def import_settings_from_env (env : List (String × String)) (cfg : Snapshot) : Snapshot :=
  (get_config_keys cfg).foldl (fun c setting =>
    match alookup env setting with
    | some value => (set_config_item true c setting (CVal.str value) false).snapshot
    | none => c) cfg

/-- `Config.__import_settings_from_file`: the parsed JSON object of
`settings.json` (empty when the file is missing or unreadable) is applied with
`set_bulk_config_items(data, save_settings=False)`. -/
def import_settings_from_file (fileData : List (String × CVal)) (cfg : Snapshot) : Snapshot :=
  (set_bulk_config_items true cfg fileData false).snapshot

/-- `os.path.join` for the absolute-prefix-free components used here. -/
def pathJoin (a b : String) : String := a ++ "/" ++ b

/-- Python truthiness of a configuration value (`if kwargs.get('port'):`). -/
def truthy : CVal → Bool
  | .str s => s ≠ ""
  | .int n => n ≠ 0
  | .bool b => b

/-- The hard-coded defaults assigned one by one at the top of
`Config.__init__`; `home` is `common.get_home_dir()`. -/
def defaults (home : String) : Snapshot :=
  [("ui_port", CVal.int 8888),
   ("config_path", CVal.str (pathJoin (pathJoin home ".unmanic") "config")),
   ("log_path", CVal.str (pathJoin (pathJoin home ".unmanic") "logs")),
   ("plugins_path", CVal.str (pathJoin (pathJoin home ".unmanic") "plugins")),
   ("userdata_path", CVal.str (pathJoin (pathJoin home ".unmanic") "userdata")),
   ("debugging", CVal.bool false),
   ("library_path", CVal.str "/library"),
   ("enable_library_scanner", CVal.bool false),
   ("schedule_full_scan_minutes", CVal.int 1440),
   ("follow_symlinks", CVal.bool true),
   ("run_full_scan_on_start", CVal.bool false),
   ("enable_inotify", CVal.bool false),
   ("number_of_workers", CVal.int 1),
   ("cache_path", CVal.str (pathJoin "/tmp" "unmanic"))]

/-- The declared configuration fields, in the order `Config.__init__`
assigns their defaults. -/
def declaredFields : List String :=
  ["ui_port", "config_path", "log_path", "plugins_path", "userdata_path", "debugging",
   "library_path", "enable_library_scanner", "schedule_full_scan_minutes", "follow_symlinks",
   "run_full_scan_on_start", "enable_inotify", "number_of_workers", "cache_path"]

/-- First override block of `Config.__init__`: `if config_path:
self.set_config_item('config_path', config_path, save_settings=False)`. -/
def cpStep (config_path : Option String) (c : Snapshot) : Snapshot :=
  match config_path with
  | some p =>
    if truthy (CVal.str p) then
      (set_config_item true c "config_path" (CVal.str p) false).snapshot
    else c
  | none => c

/-- Second override block of `Config.__init__`: `if kwargs.get('unmanic_path'):`
sets `config_path`, `plugins_path` and `userdata_path` under the given
directory, each with `save_settings=False`. -/
def upStep (unmanic_path : Option String) (c : Snapshot) : Snapshot :=
  match unmanic_path with
  | some u =>
    if truthy (CVal.str u) then
      (set_config_item true
        ((set_config_item true
          ((set_config_item true c "config_path" (CVal.str (pathJoin u "config")) false).snapshot)
          "plugins_path" (CVal.str (pathJoin u "plugins")) false).snapshot)
        "userdata_path" (CVal.str (pathJoin u "userdata")) false).snapshot
    else c
  | none => c

/-- Third override block of `Config.__init__`: `if kwargs.get('port'):
self.set_config_item('ui_port', kwargs.get('port'), save_settings=False)`. -/
def portStep (port : Option CVal) (c : Snapshot) : Snapshot :=
  match port with
  | some p => if truthy p then (set_config_item true c "ui_port" p false).snapshot else c
  | none => c

/-- The tail of `Config.__init__`: the three explicit override blocks, applied
in source order. -/
def applyCtorOverrides (config_path unmanic_path : Option String) (port : Option CVal)
    (c : Snapshot) : Snapshot :=
  portStep port (upStep unmanic_path (cpStep config_path c))

/-- `Config.__init__(config_path, unmanic_path=…, port=…)`: assign the
hard-coded defaults, overlay the environment, overlay the persisted settings
file, then apply the explicit constructor overrides. `env` is `os.environ`
restricted to the relevant bindings; `fileData` is the parsed content of
`settings.json` (empty when absent or corrupt). -/
def Config.init (home : String) (env : List (String × String)) (fileData : List (String × CVal))
    (config_path unmanic_path : Option String) (port : Option CVal) : Snapshot :=
  applyCtorOverrides config_path unmanic_path port
    (import_settings_from_file fileData (import_settings_from_env env (defaults home)))

/-! ## The per-field accessors (`get_ui_port`, …) and `get_config_item` -/

def get_ui_port (c : Snapshot) : Option CVal := alookup c "ui_port"

def get_cache_path (c : Snapshot) : Option CVal := alookup c "cache_path"

def get_config_path (c : Snapshot) : Option CVal := alookup c "config_path"

def get_debugging (c : Snapshot) : Option CVal := alookup c "debugging"

def get_enable_inotify (c : Snapshot) : Option CVal := alookup c "enable_inotify"

def get_library_path (c : Snapshot) : Option CVal := alookup c "library_path"

def get_log_path (c : Snapshot) : Option CVal := alookup c "log_path"

def get_number_of_workers (c : Snapshot) : Option CVal := alookup c "number_of_workers"

def get_enable_library_scanner (c : Snapshot) : Option CVal := alookup c "enable_library_scanner"

def get_run_full_scan_on_start (c : Snapshot) : Option CVal := alookup c "run_full_scan_on_start"

def get_schedule_full_scan_minutes (c : Snapshot) : Option CVal :=
  alookup c "schedule_full_scan_minutes"

def get_follow_symlinks (c : Snapshot) : Option CVal := alookup c "follow_symlinks"

def get_plugins_path (c : Snapshot) : Option CVal := alookup c "plugins_path"

/-- The configuration fields for which the `Config` class defines a
`get_<field>` accessor method (every declared field except `userdata_path`,
which has none). -/
def getterFields : List String :=
  ["ui_port", "cache_path", "config_path", "debugging", "enable_inotify", "library_path",
   "log_path", "number_of_workers", "enable_library_scanner", "run_full_scan_on_start",
   "schedule_full_scan_minutes", "follow_symlinks", "plugins_path"]

/-- `Config.get_config_as_dict()`: returns `self.__dict__` itself. -/
def get_config_as_dict (c : Snapshot) : Snapshot := c

/-- What a call to `Config.get_config_item(key)` produces.  The method
dispatches on `hasattr(self, "get_" + key)`, so besides the thirteen field
accessors the dispatch also fires for the method names `get_config_as_dict`,
`get_config_keys` and `get_config_item` themselves. -/
inductive GetOutcome where
  /-- A field accessor `get_<key>` ran and returned the stored attribute. -/
  | value (v : Option CVal)
  /-- Key `config_as_dict`: `get_config_as_dict()` returns `self.__dict__`. -/
  | configDict (d : Snapshot)
  /-- Key `config_keys`: `get_config_keys()` returns the dict keys view. -/
  | configKeys (ks : List String)
  /-- Key `config_item`: `get_config_item()` is called without its required
  `key` argument — Python raises a TypeError. -/
  | typeError
  /-- No `get_<key>` attribute exists: the method body falls through and
  Python returns `None`. Nothing raises a NotFoundError anywhere. -/
  | pyNone
deriving Repr, DecidableEq

/-- `Config.get_config_item(key)`: dispatches on `hasattr(self, "get_" + key)`
to the attribute of that name (the sixteen `get_*` attributes of the class:
thirteen field accessors plus `get_config_as_dict`, `get_config_keys` and
`get_config_item` itself) and calls it with no arguments; when no such
attribute exists the method body falls through and returns `None`. -/
def get_config_item (c : Snapshot) (key : String) : GetOutcome :=
  if key = "config_as_dict" then .configDict (get_config_as_dict c)
  else if key = "config_keys" then .configKeys (get_config_keys c)
  else if key = "config_item" then .typeError
  else if key = "ui_port" then .value (get_ui_port c)
  else if key = "cache_path" then .value (get_cache_path c)
  else if key = "config_path" then .value (get_config_path c)
  else if key = "debugging" then .value (get_debugging c)
  else if key = "enable_inotify" then .value (get_enable_inotify c)
  else if key = "library_path" then .value (get_library_path c)
  else if key = "log_path" then .value (get_log_path c)
  else if key = "number_of_workers" then .value (get_number_of_workers c)
  else if key = "enable_library_scanner" then .value (get_enable_library_scanner c)
  else if key = "run_full_scan_on_start" then .value (get_run_full_scan_on_start c)
  else if key = "schedule_full_scan_minutes" then .value (get_schedule_full_scan_minutes c)
  else if key = "follow_symlinks" then .value (get_follow_symlinks c)
  else if key = "plugins_path" then .value (get_plugins_path c)
  else .pyNone

/-! ## Call sequences against one store -/

/-- One public mutating call on the `Config` singleton. -/
inductive ConfigOp where
  | setItem (key : String) (value : CVal) (save : Bool)
  | bulkSet (items : List (String × CVal)) (save : Bool)
deriving Repr, DecidableEq

/-- The instance dictionary after one call (a raised persistence exception
leaves the already-performed attribute assignment in place). -/
def applyOp (writeOk : Bool) (cfg : Snapshot) : ConfigOp → Snapshot
  | .setItem k v s => (set_config_item writeOk cfg k v s).snapshot
  | .bulkSet items s => (set_bulk_config_items writeOk cfg items s).snapshot

/-- The instance dictionary after a sequence of calls. -/
def applyOps (writeOk : Bool) (cfg : Snapshot) (ops : List ConfigOp) : Snapshot :=
  ops.foldl (applyOp writeOk) cfg

/-- A key is benign for the key-set invariant when passing the lower-case
membership test implies the key itself is a current attribute name. -/
def goodKey (D : List String) (k : String) : Bool :=
  !(decide (pyLower k ∈ D)) || decide (k ∈ D)

/-- An operation that cannot add a new attribute name. -/
def goodOp (D : List String) : ConfigOp → Bool
  | .setItem k _ _ => goodKey D k
  | .bulkSet _ _ => true

/-! ## Spec-side value of the construction precedence law (C1)

These two definitions follow the specification's words ("file overlay
overrides environment overlay overrides default; explicit constructor
overrides override all three"), to be compared with `Config.init`. -/

/-- The value an explicit constructor override pins a field to, following the
spec: `config_path` comes from `unmanic_path` (joined with `config`) if that
is given, else from the `config_path` argument; `plugins_path` and
`userdata_path` come from `unmanic_path`; `ui_port` comes from `port`. -/
def ctorOverride (config_path unmanic_path : Option String) (port : Option CVal)
    (f : String) : Option CVal :=
  let upv : Option String := match unmanic_path with
    | some u => if u ≠ "" then some u else none
    | none => none
  let cpv : Option String := match config_path with
    | some p => if p ≠ "" then some p else none
    | none => none
  if f = "config_path" then
    match upv with
    | some u => some (CVal.str (pathJoin u "config"))
    | none => cpv.map CVal.str
  else if f = "plugins_path" then upv.map (fun u => CVal.str (pathJoin u "plugins"))
  else if f = "userdata_path" then upv.map (fun u => CVal.str (pathJoin u "userdata"))
  else if f = "ui_port" then
    match port with
    | some p => if truthy p then some p else none
    | none => none
  else none

/-- The spec's precedence law, per field: constructor override, else
persisted-file overlay, else environment overlay, else hard-coded default. -/
def precedenceValue (home : String) (env : List (String × String))
    (fileData : List (String × CVal)) (config_path unmanic_path : Option String)
    (port : Option CVal) (f : String) : Option CVal :=
  match ctorOverride config_path unmanic_path port f with
  | some v => some v
  | none =>
    match alookup fileData f with
    | some v => some v
    | none =>
      match alookup env f with
      | some s => some (CVal.str s)
      | none => alookup (defaults home) f

/-! ## Request schemas (`schema/schemas.py`) and the bulk plugin handlers

The marshmallow `Schema.load` of the two request schemas that the claims
concern.  A request body field that is absent is `none`; a present field is
already of the declared wire type (marshmallow's type check is the typing of
the embedding).  `load` returns either the loaded data or the per-field
validation messages. -/

/-- The raw body of a table-data request, as accepted by
`RequestTableDataSchema` (every field optional). -/
structure TableDataRequest where
  start : Option Int
  length : Option Int
  search_value : Option String
  order_by : Option String
  order_direction : Option String
deriving Repr, DecidableEq

/-- The loaded table-data request after defaults are applied. -/
structure TableDataLoaded where
  start : Int
  length : Int
  search_value : String
  order_by : String
  order_direction : Option String
deriving Repr, DecidableEq

/-- `RequestTableDataSchema().load(body)`: `start` gets `load_default=0`,
`length` gets `load_default=10`, `search_value` and `order_by` default to
`""`; `order_direction` has no load default and is validated by
`validate.OneOf(["asc", "desc"])`.  No other validator is declared — in
particular there is no range validator on `start` or `length`. -/
def loadTableDataSchema (r : TableDataRequest) :
    Except (List (String × String)) TableDataLoaded :=
  match r.order_direction with
  | some d =>
    if d = "asc" ∨ d = "desc" then
      .ok ⟨r.start.getD 0, r.length.getD 10, r.search_value.getD "", r.order_by.getD "", some d⟩
    else .error [("order_direction", "Must be one of: asc, desc.")]
  | none =>
    .ok ⟨r.start.getD 0, r.length.getD 10, r.search_value.getD "", r.order_by.getD "", none⟩

/-- `RequestTableUpdateByIdList().load(body)`: `id_list` is a required list of
integers validated by `validate.Length(min=1)`. -/
def loadIdListSchema (id_list : Option (List Int)) :
    Except (List (String × String)) (List Int) :=
  match id_list with
  | none => .error [("id_list", "Missing data for required field.")]
  | some l =>
    if 1 ≤ l.length then .ok l
    else .error [("id_list", "Shorter than minimum length 1.")]

/-- The response envelope written by a bulk plugin mutation handler. -/
inductive ApiResponse where
  | success
  | badRequest (messages : List (String × String))
  | internalError (reason : String)
deriving Repr, DecidableEq

/-- Modelled from the spec: `BaseApiHandler.read_json_request` (defined in
`base_api_handler.py`, which is not part of the visible source) validates the
request body against the given schema; on validation failure it writes the
400-class error envelope carrying the per-field messages and raises
`BaseApiError`, which the handler catches and returns on — the handler body
after the call never runs.  Each handler below therefore proceeds to its
collaborator only on a successfully loaded body.

`ApiPluginsHandler.enable_plugins`: loads `RequestTableUpdateByIdList`, calls
`plugins.enable_plugins(id_list)` and writes `{success: true}` when it returns
truthy, else the 500-class envelope with the fixed reason string.  The second
component collects the collaborator invocations (each element one call's
argument), so that "no collaborator call happens" is observable. -/
def enable_plugins (collab : List Int → Bool) (id_list : Option (List Int)) :
    ApiResponse × List (List Int) :=
  match loadIdListSchema id_list with
  | .error msgs => (.badRequest msgs, [])
  | .ok ids =>
    if collab ids then (.success, [ids])
    else (.internalError "Failed to enable the plugins by their IDs", [ids])

/-- `ApiPluginsHandler.disable_plugins` (identical shape, own reason string,
collaborator `plugins.disable_plugins`). -/
def disable_plugins (collab : List Int → Bool) (id_list : Option (List Int)) :
    ApiResponse × List (List Int) :=
  match loadIdListSchema id_list with
  | .error msgs => (.badRequest msgs, [])
  | .ok ids =>
    if collab ids then (.success, [ids])
    else (.internalError "Failed to disable the plugins by their IDs", [ids])

/-- `ApiPluginsHandler.update_plugins` (identical shape, own reason string,
collaborator `plugins.update_plugins`). -/
def update_plugins (collab : List Int → Bool) (id_list : Option (List Int)) :
    ApiResponse × List (List Int) :=
  match loadIdListSchema id_list with
  | .error msgs => (.badRequest msgs, [])
  | .ok ids =>
    if collab ids then (.success, [ids])
    else (.internalError "Failed to update the plugins by their IDs", [ids])

/-- `ApiPluginsHandler.remove_plugins` (identical shape, own reason string,
collaborator `plugins.remove_plugins`). -/
def remove_plugins (collab : List Int → Bool) (id_list : Option (List Int)) :
    ApiResponse × List (List Int) :=
  match loadIdListSchema id_list with
  | .error msgs => (.badRequest msgs, [])
  | .ok ids =>
    if collab ids then (.success, [ids])
    else (.internalError "Failed to remove the plugins by their IDs", [ids])

/-! ## Concrete stores used by the closed counterexamples and witnesses -/

/-- A store freshly constructed with no environment, no settings file and no
constructor overrides. -/
def cfg0 : Snapshot := Config.init "/home/user" [] [] none none none

/-- A store constructed with the environment variable `ui_port=9999` set and
nothing else. -/
def cfgEnv : Snapshot := Config.init "/home/user" [("ui_port", "9999")] [] none none none

/-- The value the `config_path` override block pins a field to (proof
decomposition of `ctorOverride`). -/
def cpOv (config_path : Option String) (f : String) : Option CVal :=
  match config_path with
  | some p => if f = "config_path" ∧ p ≠ "" then some (CVal.str p) else none
  | none => none

/-- The value the `unmanic_path` override block pins a field to. -/
def upOv (unmanic_path : Option String) (f : String) : Option CVal :=
  match unmanic_path with
  | some u =>
    if u ≠ "" then
      if f = "config_path" then some (CVal.str (pathJoin u "config"))
      else if f = "plugins_path" then some (CVal.str (pathJoin u "plugins"))
      else if f = "userdata_path" then some (CVal.str (pathJoin u "userdata"))
      else none
    else none
  | none => none

/-- The value the `port` override block pins a field to. -/
def portOv (port : Option CVal) (f : String) : Option CVal :=
  match port with
  | some p => if f = "ui_port" ∧ truthy p then some p else none
  | none => none

/-- One overlay step shared by the environment import and the save-free bulk
import: look the key up in the source and assign it when present. -/
def overlayStep (src : String → Option CVal) (c : Snapshot) (k : String) : Snapshot :=
  match src k with
  | some v => (set_config_item true c k v false).snapshot
  | none => c

/-! ## Basic lemmas about the instance dictionary -/

theorem alookup_setattr_self (c : Snapshot) (k : String) (v : CVal) :
    alookup (setattr c k v) k = some v := by
  induction c with
  | nil => simp [setattr, alookup]
  | cons p rest ih =>
    obtain ⟨k', w⟩ := p
    by_cases h : k' = k
    · simp [setattr, h, alookup]
    · simp [setattr, h, alookup, ih]

theorem alookup_setattr_ne (c : Snapshot) (k : String) (v : CVal) (f : String) (h : k ≠ f) :
    alookup (setattr c k v) f = alookup c f := by
  induction c with
  | nil => simp [setattr, alookup, h]
  | cons p rest ih =>
    obtain ⟨k', w⟩ := p
    by_cases h' : k' = k
    · subst h'; simp [setattr, alookup, h]
    · by_cases h'' : k' = f
      · subst h''; simp [setattr, alookup, h']
      · simp [setattr, alookup, h', h'', ih]

theorem get_config_keys_cons (p : String × CVal) (rest : Snapshot) :
    get_config_keys (p :: rest) = p.1 :: get_config_keys rest := rfl

theorem keys_setattr_mem (c : Snapshot) (k : String) (v : CVal) :
    k ∈ get_config_keys c → get_config_keys (setattr c k v) = get_config_keys c := by
  induction c with
  | nil => intro h; simp [get_config_keys] at h
  | cons p rest ih =>
    obtain ⟨k', w⟩ := p
    intro h
    by_cases h' : k' = k
    · subst h'; simp [setattr, get_config_keys]
    · have hk : k ∈ get_config_keys rest := by
        rw [get_config_keys_cons] at h
        rcases List.mem_cons.mp h with h | h
        · exact absurd h.symm h'
        · exact h
      simp only [setattr, if_neg h', get_config_keys_cons]
      rw [ih hk]

theorem sci_snapshot (wo : Bool) (c : Snapshot) (k : String) (v : CVal) (s : Bool) :
    (set_config_item wo c k v s).snapshot =
      if pyLower k ∈ get_config_keys c then setattr c k v else c := by
  unfold set_config_item
  split_ifs <;> rfl

theorem sci_nosave (wo : Bool) (c : Snapshot) (k : String) (v : CVal) :
    set_config_item wo c k v false =
      ⟨if pyLower k ∈ get_config_keys c then setattr c k v else c, 0, false⟩ := by
  unfold set_config_item
  split_ifs <;> first | rfl | contradiction

theorem keys_sci (wo : Bool) (c : Snapshot) (k : String) (v : CVal) (s : Bool)
    (h : pyLower k ∈ get_config_keys c → k ∈ get_config_keys c) :
    get_config_keys (set_config_item wo c k v s).snapshot = get_config_keys c := by
  rw [sci_snapshot]
  split_ifs with hm
  · exact keys_setattr_mem c k v (h hm)
  · rfl

theorem alookup_sci_ne (wo : Bool) (c : Snapshot) (k : String) (v : CVal) (s : Bool)
    (f : String) (h : k ≠ f) :
    alookup (set_config_item wo c k v s).snapshot f = alookup c f := by
  rw [sci_snapshot]
  split_ifs
  · exact alookup_setattr_ne c k v f h
  · rfl

theorem alookup_sci_self (wo : Bool) (c : Snapshot) (k : String) (v : CVal) (s : Bool)
    (h : pyLower k ∈ get_config_keys c) :
    alookup (set_config_item wo c k v s).snapshot k = some v := by
  rw [sci_snapshot, if_pos h]
  exact alookup_setattr_self c k v

/-! ## Overlay-fold lemmas (environment and file import) -/

theorem alookup_overlayStep_ne (src : String → Option CVal) (c : Snapshot) (k f : String)
    (h : k ≠ f) : alookup (overlayStep src c k) f = alookup c f := by
  cases hs : src k with
  | none => simp [overlayStep, hs]
  | some v =>
    simp only [overlayStep, hs]
    exact alookup_sci_ne true c k v false f h

theorem alookup_overlayStep_self (src : String → Option CVal) (c : Snapshot) (f : String)
    (hmem : f ∈ get_config_keys c) (hlow : pyLower f = f) :
    alookup (overlayStep src c f) f =
      match src f with
      | some v => some v
      | none => alookup c f := by
  cases hs : src f with
  | none => simp [overlayStep, hs]
  | some v =>
    simp only [overlayStep, hs]
    exact alookup_sci_self true c f v false (by rw [hlow]; exact hmem)

theorem keys_overlayStep (src : String → Option CVal) (c : Snapshot) (k : String)
    (h : k ∈ get_config_keys c) :
    get_config_keys (overlayStep src c k) = get_config_keys c := by
  cases hs : src k with
  | none => simp [overlayStep, hs]
  | some v =>
    simp only [overlayStep, hs]
    exact keys_sci true c k v false (fun _ => h)

theorem keys_foldl_overlay (src : String → Option CVal) (L : List String) :
    ∀ c : Snapshot, (∀ k ∈ L, k ∈ get_config_keys c) →
      get_config_keys (L.foldl (overlayStep src) c) = get_config_keys c := by
  induction L with
  | nil => intro c _; rfl
  | cons k rest ih =>
    intro c hL
    have hk : k ∈ get_config_keys c := hL k (List.mem_cons_self k rest)
    have hkeys := keys_overlayStep src c k hk
    calc get_config_keys ((k :: rest).foldl (overlayStep src) c)
        = get_config_keys (rest.foldl (overlayStep src) (overlayStep src c k)) := rfl
      _ = get_config_keys (overlayStep src c k) :=
          ih _ (fun j hj => by rw [hkeys]; exact hL j (List.mem_cons_of_mem k hj))
      _ = get_config_keys c := hkeys

theorem alookup_foldl_overlay_not_mem (src : String → Option CVal) (L : List String) :
    ∀ (c : Snapshot) (f : String), f ∉ L →
      alookup (L.foldl (overlayStep src) c) f = alookup c f := by
  induction L with
  | nil => intro c f _; rfl
  | cons k rest ih =>
    intro c f hf
    have hkf : k ≠ f := fun h => hf (h ▸ List.mem_cons_self k rest)
    have hfr : f ∉ rest := fun h => hf (List.mem_cons_of_mem k h)
    calc alookup ((k :: rest).foldl (overlayStep src) c) f
        = alookup (rest.foldl (overlayStep src) (overlayStep src c k)) f := rfl
      _ = alookup (overlayStep src c k) f := ih _ f hfr
      _ = alookup c f := alookup_overlayStep_ne src c k f hkf

theorem alookup_foldl_overlay_mem (src : String → Option CVal) (L : List String) :
    ∀ (c : Snapshot) (f : String), f ∈ L → L.Nodup →
      (∀ k ∈ L, k ∈ get_config_keys c) → pyLower f = f →
      alookup (L.foldl (overlayStep src) c) f =
        match src f with
        | some v => some v
        | none => alookup c f := by
  induction L with
  | nil => intro c f hf _ _ _; exact absurd hf (List.not_mem_nil f)
  | cons k rest ih =>
    intro c f hf hnd hL hlow
    obtain ⟨hknr, hndr⟩ := List.nodup_cons.mp hnd
    by_cases hkf : k = f
    · subst hkf
      have step := alookup_overlayStep_self src c k (hL k (List.mem_cons_self k rest)) hlow
      calc alookup ((k :: rest).foldl (overlayStep src) c) k
          = alookup (rest.foldl (overlayStep src) (overlayStep src c k)) k := rfl
        _ = alookup (overlayStep src c k) k := alookup_foldl_overlay_not_mem src rest _ k hknr
        _ = _ := step
    · have hf' : f ∈ rest := by
        rcases List.mem_cons.mp hf with h | h
        · exact absurd h.symm hkf
        · exact h
      have hkmem : k ∈ get_config_keys c := hL k (List.mem_cons_self k rest)
      have hkeys := keys_overlayStep src c k hkmem
      have hstep := ih (overlayStep src c k) f hf' hndr
        (fun j hj => by rw [hkeys]; exact hL j (List.mem_cons_of_mem k hj)) hlow
      have hchain : alookup ((k :: rest).foldl (overlayStep src) c) f =
          alookup (rest.foldl (overlayStep src) (overlayStep src c k)) f := rfl
      rw [hchain, hstep]
      cases hs : src f with
      | some v => simp [hs]
      | none => simp only [hs]; exact alookup_overlayStep_ne src c k f hkf

theorem import_env_eq_overlay (env : List (String × String)) (cfg : Snapshot) :
    import_settings_from_env env cfg =
      (get_config_keys cfg).foldl (overlayStep (fun k => (alookup env k).map CVal.str)) cfg := by
  unfold import_settings_from_env
  have h : (fun (c : Snapshot) (setting : String) =>
      match alookup env setting with
      | some value => (set_config_item true c setting (CVal.str value) false).snapshot
      | none => c) = overlayStep (fun k => (alookup env k).map CVal.str) := by
    funext c k
    cases hs : alookup env k <;> simp [overlayStep, hs]
  rw [h]

theorem bulk_go_nosave (wo : Bool) (items : List (String × CVal)) (L : List String) :
    ∀ (c : Snapshot) (w : Nat),
      set_bulk_go wo items false L c w =
        ⟨L.foldl (overlayStep (alookup items)) c, w, false⟩ := by
  induction L with
  | nil => intro c w; rfl
  | cons k rest ih =>
    intro c w
    cases hs : alookup items k with
    | none =>
      simp only [set_bulk_go, hs, ih]
      simp [List.foldl, overlayStep, hs]
    | some v =>
      simp only [set_bulk_go, hs, sci_nosave]
      simp only [List.foldl]
      rw [ih]
      simp [overlayStep, hs, sci_nosave]

theorem import_file_eq_overlay (fileData : List (String × CVal)) (cfg : Snapshot) :
    import_settings_from_file fileData cfg =
      (get_config_keys cfg).foldl (overlayStep (alookup fileData)) cfg := by
  unfold import_settings_from_file set_bulk_config_items
  rw [bulk_go_nosave]

/-! ## Constructor override lemmas -/

theorem keys_sci_declared (wo : Bool) (c : Snapshot) (k : String) (v : CVal) (s : Bool)
    (hkeys : get_config_keys c = declaredFields) (hk : k ∈ declaredFields) :
    get_config_keys (set_config_item wo c k v s).snapshot = declaredFields := by
  rw [keys_sci wo c k v s (fun _ => by rw [hkeys]; exact hk), hkeys]

theorem alookup_sci_declared_self (wo : Bool) (c : Snapshot) (k : String) (v : CVal) (s : Bool)
    (hkeys : get_config_keys c = declaredFields) (hk : pyLower k ∈ declaredFields) :
    alookup (set_config_item wo c k v s).snapshot k = some v :=
  alookup_sci_self wo c k v s (by rw [hkeys]; exact hk)

theorem keys_cpStep (cp : Option String) (c : Snapshot)
    (hkeys : get_config_keys c = declaredFields) :
    get_config_keys (cpStep cp c) = declaredFields := by
  cases cp with
  | none => exact hkeys
  | some p =>
    simp only [cpStep]
    split_ifs
    · exact keys_sci_declared true c "config_path" (CVal.str p) false hkeys (by decide)
    · exact hkeys

theorem keys_upStep (up : Option String) (c : Snapshot)
    (hkeys : get_config_keys c = declaredFields) :
    get_config_keys (upStep up c) = declaredFields := by
  cases up with
  | none => exact hkeys
  | some u =>
    simp only [upStep]
    split_ifs
    · exact keys_sci_declared true _ "userdata_path" _ false
        (keys_sci_declared true _ "plugins_path" _ false
          (keys_sci_declared true c "config_path" _ false hkeys (by decide)) (by decide))
        (by decide)
    · exact hkeys

theorem keys_portStep (port : Option CVal) (c : Snapshot)
    (hkeys : get_config_keys c = declaredFields) :
    get_config_keys (portStep port c) = declaredFields := by
  cases port with
  | none => exact hkeys
  | some p =>
    simp only [portStep]
    split_ifs
    · exact keys_sci_declared true c "ui_port" p false hkeys (by decide)
    · exact hkeys

theorem alookup_cpStep (cp : Option String) (c : Snapshot) (f : String)
    (hkeys : get_config_keys c = declaredFields) :
    alookup (cpStep cp c) f =
      match cpOv cp f with
      | some v => some v
      | none => alookup c f := by
  cases cp with
  | none => rfl
  | some p =>
    by_cases hp : p = ""
    · subst hp; simp [cpStep, cpOv, truthy]
    · have ht : truthy (CVal.str p) = true := by simp [truthy, hp]
      simp only [cpStep, ht, if_true]
      by_cases hfc : f = "config_path"
      · subst hfc
        rw [alookup_sci_declared_self true c "config_path" (CVal.str p) false hkeys (by decide)]
        simp [cpOv, hp]
      · rw [alookup_sci_ne true c "config_path" (CVal.str p) false f (fun h => hfc h.symm)]
        simp [cpOv, hfc]

theorem alookup_portStep (port : Option CVal) (c : Snapshot) (f : String)
    (hkeys : get_config_keys c = declaredFields) :
    alookup (portStep port c) f =
      match portOv port f with
      | some v => some v
      | none => alookup c f := by
  cases port with
  | none => rfl
  | some p =>
    by_cases ht : truthy p = true
    · simp only [portStep, ht, if_true]
      by_cases hfu : f = "ui_port"
      · subst hfu
        rw [alookup_sci_declared_self true c "ui_port" p false hkeys (by decide)]
        simp [portOv, ht]
      · rw [alookup_sci_ne true c "ui_port" p false f (fun h => hfu h.symm)]
        simp [portOv, hfu]
    · simp only [portStep, ht, if_false]
      simp [portOv, ht]

theorem alookup_upStep (up : Option String) (c : Snapshot) (f : String)
    (hkeys : get_config_keys c = declaredFields) :
    alookup (upStep up c) f =
      match upOv up f with
      | some v => some v
      | none => alookup c f := by
  cases up with
  | none => rfl
  | some u =>
    by_cases hu : u = ""
    · subst hu; simp [upStep, upOv, truthy]
    · have ht : truthy (CVal.str u) = true := by simp [truthy, hu]
      have k1 : get_config_keys
          (set_config_item true c "config_path" (CVal.str (pathJoin u "config")) false).snapshot =
          declaredFields :=
        keys_sci_declared true c "config_path" _ false hkeys (by decide)
      have k2 : get_config_keys
          (set_config_item true
            ((set_config_item true c "config_path" (CVal.str (pathJoin u "config")) false).snapshot)
            "plugins_path" (CVal.str (pathJoin u "plugins")) false).snapshot = declaredFields :=
        keys_sci_declared true _ "plugins_path" _ false k1 (by decide)
      simp only [upStep, ht, if_true]
      by_cases h1 : f = "userdata_path"
      · subst h1
        rw [alookup_sci_declared_self true _ "userdata_path" _ false k2 (by decide)]
        simp [upOv, hu]
      · rw [alookup_sci_ne true _ "userdata_path" _ false f (fun h => h1 h.symm)]
        by_cases h2 : f = "plugins_path"
        · subst h2
          rw [alookup_sci_declared_self true _ "plugins_path" _ false k1 (by decide)]
          simp [upOv, hu]
        · rw [alookup_sci_ne true _ "plugins_path" _ false f (fun h => h2 h.symm)]
          by_cases h3 : f = "config_path"
          · subst h3
            rw [alookup_sci_declared_self true c "config_path" _ false hkeys (by decide)]
            simp [upOv, hu]
          · rw [alookup_sci_ne true c "config_path" _ false f (fun h => h3 h.symm)]
            simp [upOv, hu, h1, h2, h3]

theorem ctorOverride_decompose (cp up : Option String) (port : Option CVal) (f : String) :
    ctorOverride cp up port f =
      match portOv port f with
      | some v => some v
      | none =>
        match upOv up f with
        | some v => some v
        | none => cpOv cp f := by
  rcases cp with _ | p <;> rcases up with _ | u <;> rcases port with _ | pv <;>
    simp only [ctorOverride, cpOv, upOv, portOv] <;>
    (try split_ifs) <;> simp_all

theorem alookup_applyCtorOverrides (cp up : Option String) (port : Option CVal)
    (c : Snapshot) (f : String) (hkeys : get_config_keys c = declaredFields) :
    alookup (applyCtorOverrides cp up port c) f =
      match ctorOverride cp up port f with
      | some v => some v
      | none => alookup c f := by
  have hk1 : get_config_keys (cpStep cp c) = declaredFields := keys_cpStep cp c hkeys
  have hk2 : get_config_keys (upStep up (cpStep cp c)) = declaredFields :=
    keys_upStep up _ hk1
  unfold applyCtorOverrides
  rw [alookup_portStep port _ f hk2, ctorOverride_decompose]
  cases hpo : portOv port f with
  | some v => simp [hpo]
  | none =>
    simp only [hpo]
    rw [alookup_upStep up _ f hk1]
    cases hup : upOv up f with
    | some v => simp [hup]
    | none =>
      simp only [hup]
      exact alookup_cpStep cp c f hkeys

/-! ## The construction pipeline, field by field -/

theorem keys_defaults (home : String) : get_config_keys (defaults home) = declaredFields := rfl

theorem declaredFields_nodup : declaredFields.Nodup := by decide

theorem declaredFields_lower : ∀ k ∈ declaredFields, pyLower k = k := by decide

theorem keys_import_env (env : List (String × String)) (home : String) :
    get_config_keys (import_settings_from_env env (defaults home)) = declaredFields := by
  rw [import_env_eq_overlay, keys_defaults,
    keys_foldl_overlay _ declaredFields (defaults home)
      (fun k hk => by rw [keys_defaults]; exact hk),
    keys_defaults]

theorem alookup_import_env (env : List (String × String)) (home : String) (f : String)
    (hf : f ∈ declaredFields) :
    alookup (import_settings_from_env env (defaults home)) f =
      match alookup env f with
      | some s => some (CVal.str s)
      | none => alookup (defaults home) f := by
  rw [import_env_eq_overlay, keys_defaults,
    alookup_foldl_overlay_mem _ declaredFields (defaults home) f hf declaredFields_nodup
      (fun k hk => by rw [keys_defaults]; exact hk) (declaredFields_lower f hf)]
  cases hs : alookup env f <;> simp [hs]

theorem keys_import_file (fileData : List (String × CVal)) (c : Snapshot)
    (hkeys : get_config_keys c = declaredFields) :
    get_config_keys (import_settings_from_file fileData c) = declaredFields := by
  rw [import_file_eq_overlay, hkeys,
    keys_foldl_overlay _ declaredFields c (fun k hk => by rw [hkeys]; exact hk), hkeys]

theorem alookup_import_file (fileData : List (String × CVal)) (c : Snapshot) (f : String)
    (hf : f ∈ declaredFields) (hkeys : get_config_keys c = declaredFields) :
    alookup (import_settings_from_file fileData c) f =
      match alookup fileData f with
      | some v => some v
      | none => alookup c f := by
  rw [import_file_eq_overlay, hkeys,
    alookup_foldl_overlay_mem _ declaredFields c f hf declaredFields_nodup
      (fun k hk => by rw [hkeys]; exact hk) (declaredFields_lower f hf)]

theorem init_alookup (home : String) (env : List (String × String))
    (fileData : List (String × CVal)) (cp up : Option String) (port : Option CVal)
    (f : String) (hf : f ∈ declaredFields) :
    alookup (Config.init home env fileData cp up port) f =
      precedenceValue home env fileData cp up port f := by
  have hk1 : get_config_keys (import_settings_from_env env (defaults home)) = declaredFields :=
    keys_import_env env home
  have hk2 : get_config_keys
      (import_settings_from_file fileData (import_settings_from_env env (defaults home))) =
      declaredFields := keys_import_file fileData _ hk1
  unfold Config.init precedenceValue
  rw [alookup_applyCtorOverrides cp up port _ f hk2]
  cases hco : ctorOverride cp up port f with
  | some v => simp [hco]
  | none =>
    simp only [hco]
    rw [alookup_import_file fileData _ f hf hk1]
    cases hfd : alookup fileData f with
    | some v => simp [hfd]
    | none =>
      simp only [hfd]
      exact alookup_import_env env home f hf

theorem keys_init (home : String) (env : List (String × String))
    (fileData : List (String × CVal)) (cp up : Option String) (port : Option CVal) :
    get_config_keys (Config.init home env fileData cp up port) = declaredFields := by
  unfold Config.init applyCtorOverrides
  exact keys_portStep port _ (keys_upStep up _ (keys_cpStep cp _
    (keys_import_file fileData _ (keys_import_env env home))))

/-! ## Accessor dispatch, key-set preservation and write counting -/

theorem get_config_item_eq (c : Snapshot) (key : String) :
    get_config_item c key =
      if key ∈ getterFields then GetOutcome.value (alookup c key)
      else if key = "config_as_dict" then GetOutcome.configDict c
      else if key = "config_keys" then GetOutcome.configKeys (get_config_keys c)
      else if key = "config_item" then GetOutcome.typeError
      else GetOutcome.pyNone := by
  by_cases h : key ∈ getterFields
  · rw [if_pos h]
    fin_cases h <;> rfl
  · rw [if_neg h]
    simp only [getterFields, List.mem_cons, List.not_mem_nil, or_false, not_or] at h
    obtain ⟨h1, h2, h3, h4, h5, h6, h7, h8, h9, h10, h11, h12, h13⟩ := h
    by_cases ha : key = "config_as_dict"
    · subst ha; rfl
    · by_cases hb : key = "config_keys"
      · subst hb; rfl
      · by_cases hc : key = "config_item"
        · subst hc; rfl
        · simp [get_config_item, h1, h2, h3, h4, h5, h6, h7, h8, h9, h10, h11, h12, h13,
            ha, hb, hc]

theorem keys_bulk_go (wo : Bool) (items : List (String × CVal)) (s : Bool) (L : List String) :
    ∀ (c : Snapshot) (w : Nat), (∀ k ∈ L, k ∈ get_config_keys c) →
      get_config_keys (set_bulk_go wo items s L c w).snapshot = get_config_keys c := by
  induction L with
  | nil => intro c w _; rfl
  | cons k rest ih =>
    intro c w hL
    have hk : k ∈ get_config_keys c := hL k (List.mem_cons_self k rest)
    have hkeys : ∀ v, get_config_keys (set_config_item wo c k v s).snapshot = get_config_keys c :=
      fun v => keys_sci wo c k v s (fun _ => hk)
    cases hs : alookup items k with
    | none =>
      simp only [set_bulk_go, hs]
      exact ih c w (fun j hj => hL j (List.mem_cons_of_mem k hj))
    | some v =>
      cases hr : (set_config_item wo c k v s).raised with
      | true =>
        simp only [set_bulk_go, hs, hr, if_true]
        exact hkeys v
      | false =>
        simp only [set_bulk_go, hs, hr, Bool.false_eq_true, if_false]
        rw [ih _ _ (fun j hj => by rw [hkeys v]; exact hL j (List.mem_cons_of_mem k hj)),
          hkeys v]

theorem keys_set_bulk (wo : Bool) (cfg : Snapshot) (items : List (String × CVal)) (s : Bool) :
    get_config_keys (set_bulk_config_items wo cfg items s).snapshot = get_config_keys cfg :=
  keys_bulk_go wo items s (get_config_keys cfg) cfg 0 (fun _ hk => hk)

theorem keys_applyOp (wo : Bool) (cfg : Snapshot) (op : ConfigOp)
    (h : goodOp (get_config_keys cfg) op = true) :
    get_config_keys (applyOp wo cfg op) = get_config_keys cfg := by
  cases op with
  | setItem k v s =>
    simp only [applyOp]
    apply keys_sci
    intro hmem
    simp only [goodOp, goodKey, Bool.or_eq_true, Bool.not_eq_true', decide_eq_true_eq,
      decide_eq_false_iff_not] at h
    exact h.elim (fun hn => absurd hmem hn) id
  | bulkSet items s =>
    simp only [applyOp]
    exact keys_set_bulk wo cfg items s

theorem keys_applyOps (wo : Bool) (ops : List ConfigOp) :
    ∀ cfg : Snapshot, (∀ op ∈ ops, goodOp (get_config_keys cfg) op = true) →
      get_config_keys (applyOps wo cfg ops) = get_config_keys cfg := by
  induction ops with
  | nil => intro cfg _; rfl
  | cons op rest ih =>
    intro cfg hops
    have h1 := keys_applyOp wo cfg op (hops op (List.mem_cons_self op rest))
    calc get_config_keys (applyOps wo cfg (op :: rest))
        = get_config_keys (applyOps wo (applyOp wo cfg op) rest) := rfl
      _ = get_config_keys (applyOp wo cfg op) :=
          ih _ (fun o ho => by rw [h1]; exact hops o (List.mem_cons_of_mem op ho))
      _ = get_config_keys cfg := h1

theorem bulk_go_writes (items : List (String × CVal)) (L : List String) :
    ∀ (c : Snapshot) (w : Nat),
      (∀ k ∈ L, k ∈ get_config_keys c ∧ pyLower k = k) →
      (set_bulk_go true items true L c w).writes =
        w + (L.filter (fun k => (alookup items k).isSome)).length := by
  induction L with
  | nil => intro c w _; simp [set_bulk_go]
  | cons k rest ih =>
    intro c w hL
    obtain ⟨hk, hlow⟩ := hL k (List.mem_cons_self k rest)
    cases hs : alookup items k with
    | none =>
      simp only [set_bulk_go, hs]
      rw [ih c w (fun j hj => hL j (List.mem_cons_of_mem k hj))]
      simp [List.filter, hs]
    | some v =>
      have hmem : pyLower k ∈ get_config_keys c := by rw [hlow]; exact hk
      have hsci : set_config_item true c k v true = ⟨setattr c k v, 1, false⟩ := by
        unfold set_config_item
        rw [if_pos hmem]
        rfl
      have hkeys : get_config_keys (setattr c k v) = get_config_keys c :=
        keys_setattr_mem c k v hk
      simp only [set_bulk_go, hs, hsci, Bool.false_eq_true, if_false]
      rw [ih (setattr c k v) (w + 1)
        (fun j hj => by rw [hkeys]; exact hL j (List.mem_cons_of_mem k hj))]
      simp [List.filter, hs]
      omega

theorem ctorOverride_none (f : String) : ctorOverride none none none f = none := by
  unfold ctorOverride
  split_ifs <;> rfl

/-! ## Claim theorems -/

/-- C1: for every declared configuration field, the value observable after
store construction follows the precedence law — the persisted-file overlay
overrides the environment overlay, the environment overlay overrides the
hard-coded default, and the explicit constructor overrides (`config_path`,
the `unmanic_path`-derived paths and `port`) override all three — and
`get_config_item` serves that value for every field with an accessor. -/
theorem c1_config_precedence (home : String) (env : List (String × String))
    (fileData : List (String × CVal)) (cp up : Option String) (port : Option CVal)
    (f : String) (hf : f ∈ declaredFields) :
    alookup (Config.init home env fileData cp up port) f =
      precedenceValue home env fileData cp up port f ∧
    (f ∈ getterFields →
      get_config_item (Config.init home env fileData cp up port) f =
        GetOutcome.value (precedenceValue home env fileData cp up port f)) := by
  refine ⟨init_alookup home env fileData cp up port f hf, fun hg => ?_⟩
  rw [get_config_item_eq, if_pos hg]
  exact congrArg GetOutcome.value (init_alookup home env fileData cp up port f hf)

/-- C1 witness: the spec scenario — `ui_port` defaults to 8888, no matching
environment variable, persisted file containing `ui_port: 9999` — yields
`get_config_item "ui_port" = 9999`. -/
theorem c1_config_precedence_witness :
    get_config_item (Config.init "/home/user" [] [("ui_port", CVal.int 9999)] none none none)
      "ui_port" = GetOutcome.value (some (CVal.int 9999)) := by
  have h := (c1_config_precedence "/home/user" [] [("ui_port", CVal.int 9999)] none none none
    "ui_port" (by decide)).2 (by decide)
  rw [h]
  decide

/-- C2 counterexample: with the environment variable `ui_port=9999` set at
construction, the store yields the raw string `"9999"` for `ui_port`, not the
value coerced to the field's semantic integer type. -/
theorem c2_env_coercion_cex :
    get_config_item cfgEnv "ui_port" = GetOutcome.value (some (CVal.str "9999")) ∧
    some (CVal.str "9999") ≠ some (CVal.int 9999) := by
  decide

/-- C2 amended: for every declared field whose name is present as an
environment variable at construction (no settings file, no constructor
overrides), the store holds the raw environment string — uncoerced —
overriding the default, and `get_config_item` returns that raw string
whenever the field has an accessor. -/
theorem c2_env_overrides_default_uncoerced (home : String) (env : List (String × String))
    (f : String) (s : String) (hf : f ∈ declaredFields) (hs : alookup env f = some s) :
    alookup (Config.init home env [] none none none) f = some (CVal.str s) ∧
    (f ∈ getterFields →
      get_config_item (Config.init home env [] none none none) f =
        GetOutcome.value (some (CVal.str s))) := by
  have h := init_alookup home env [] none none none f hf
  have hpv : precedenceValue home env [] none none none f = some (CVal.str s) := by
    unfold precedenceValue
    rw [ctorOverride_none]
    simp [alookup, hs]
  refine ⟨by rw [h, hpv], fun hg => ?_⟩
  rw [get_config_item_eq, if_pos hg, h, hpv]

/-- C2 amended witness: `ui_port=9999` in the environment yields the raw
string value, through the accessor as well. -/
theorem c2_env_overrides_default_uncoerced_witness :
    alookup cfgEnv "ui_port" = some (CVal.str "9999") ∧
    get_config_item cfgEnv "ui_port" = GetOutcome.value (some (CVal.str "9999")) := by
  have h := c2_env_overrides_default_uncoerced "/home/user" [("ui_port", "9999")]
    "ui_port" "9999" (by decide) (by decide)
  exact ⟨h.1, h.2 (by decide)⟩

/-- C3 counterexample: `userdata_path` is a declared field of a freshly
constructed store and holds a value, yet `get_config_item` returns `None` for
it (the class defines no `get_userdata_path` accessor); for an undeclared key
the call likewise returns `None` rather than failing with a NotFoundError;
and the undeclared keys `config_item` and `config_as_dict` hit the
`hasattr("get_" + key)` collisions, raising a TypeError and returning the
instance dictionary respectively. -/
theorem c3_get_config_item_cex :
    "userdata_path" ∈ get_config_keys cfg0 ∧
    alookup cfg0 "userdata_path" = some (CVal.str "/home/user/.unmanic/userdata") ∧
    get_config_item cfg0 "userdata_path" = GetOutcome.pyNone ∧
    get_config_item cfg0 "not_a_field" = GetOutcome.pyNone ∧
    get_config_item cfg0 "config_item" = GetOutcome.typeError ∧
    get_config_item cfg0 "config_as_dict" = GetOutcome.configDict cfg0 := by
  decide

/-- C3 amended: `get_config_item` dispatches on the existence of a
`get_<key>` attribute: for the thirteen declared fields with accessors
(`getterFields`) it returns the stored value; for the three colliding method
names it returns `self.__dict__` (`config_as_dict`) or the keys view
(`config_keys`), or raises a TypeError (`config_item`, whose method is called
without its required argument); for every other key — undeclared keys and the
declared field `userdata_path` alike — it returns `None` without raising.  No
NotFoundError exists anywhere in the method. -/
theorem c3_get_config_item_amended (c : Snapshot) (key : String) :
    get_config_item c key =
      if key ∈ getterFields then GetOutcome.value (alookup c key)
      else if key = "config_as_dict" then GetOutcome.configDict c
      else if key = "config_keys" then GetOutcome.configKeys (get_config_keys c)
      else if key = "config_item" then GetOutcome.typeError
      else GetOutcome.pyNone :=
  get_config_item_eq c key

/-- C4 counterexample: a bulk update of two declared fields with persistence
enabled rewrites the settings file twice — not exactly once. -/
theorem c4_bulk_single_write_cex :
    (set_bulk_config_items true cfg0
      [("ui_port", CVal.int 9090), ("debugging", CVal.bool true)] true).writes = 2 ∧
    (2 : Nat) ≠ 1 := by
  decide

/-- C4 amended: with persistence enabled, `set_bulk_config_items` performs
one settings-file rewrite per matching field — `n` rewrites for `n` snapshot
keys present in the mapping — because `save_settings` is forwarded to every
per-field `set_config_item` call; there is no single deferred rewrite. -/
theorem c4_bulk_write_per_field (cfg : Snapshot) (items : List (String × CVal))
    (hlow : ∀ k ∈ get_config_keys cfg, pyLower k = k) :
    (set_bulk_config_items true cfg items true).writes =
      ((get_config_keys cfg).filter (fun k => (alookup items k).isSome)).length := by
  unfold set_bulk_config_items
  rw [bulk_go_writes items (get_config_keys cfg) cfg 0 (fun k hk => ⟨hk, hlow k hk⟩)]
  exact Nat.zero_add _

/-- C4 amended witness: on a fresh store, a two-field mapping causes exactly
two rewrites. -/
theorem c4_bulk_write_per_field_witness :
    (set_bulk_config_items true cfg0
      [("ui_port", CVal.int 9090), ("debugging", CVal.bool true)] true).writes =
      ((get_config_keys cfg0).filter
        (fun k => (alookup [("ui_port", CVal.int 9090), ("debugging", CVal.bool true)] k).isSome)).length ∧
    ((get_config_keys cfg0).filter
      (fun k => (alookup [("ui_port", CVal.int 9090), ("debugging", CVal.bool true)] k).isSome)).length = 2 :=
  ⟨c4_bulk_write_per_field cfg0 _ (by decide), by decide⟩

/-- C5 counterexample: a single `set_config_item` call with key `"UI_PORT"` —
undeclared, but lower-casing to the declared `ui_port` — passes the guard and
is retained, so the snapshot's attribute names no longer equal the declared
field set. -/
theorem c5_keys_invariant_cex :
    get_config_keys (applyOps true cfg0 [ConfigOp.setItem "UI_PORT" (CVal.int 1) false]) =
      declaredFields ++ ["UI_PORT"] ∧
    declaredFields ++ ["UI_PORT"] ≠ declaredFields ∧
    "UI_PORT" ∉ declaredFields := by
  decide

/-- C5 amended: the snapshot's attribute names remain exactly the keys
present at construction under every sequence of `set_config_item` /
`set_bulk_config_items` calls in which each `set_config_item` key either is a
current attribute name or has a lower-cased form that is not one; the sole
escape is a key (such as `"UI_PORT"`) that is itself undeclared while its
lower-cased form is declared, which is retained as a new attribute. -/
theorem c5_keys_invariant_amended (wo : Bool) (cfg : Snapshot) (ops : List ConfigOp)
    (h : ∀ op ∈ ops, goodOp (get_config_keys cfg) op = true) :
    get_config_keys (applyOps wo cfg ops) = get_config_keys cfg :=
  keys_applyOps wo ops cfg h

/-- C5 amended witness: a declared-key set followed by a bulk set leaves the
key set unchanged. -/
theorem c5_keys_invariant_amended_witness :
    goodOp (get_config_keys cfg0) (ConfigOp.setItem "ui_port" (CVal.int 9090) false) = true ∧
    goodOp (get_config_keys cfg0) (ConfigOp.bulkSet [("debugging", CVal.bool true)] false) = true ∧
    get_config_keys (applyOps true cfg0
      [ConfigOp.setItem "ui_port" (CVal.int 9090) false,
       ConfigOp.bulkSet [("debugging", CVal.bool true)] false]) = get_config_keys cfg0 :=
  ⟨by decide, by decide, c5_keys_invariant_amended true cfg0 _ (by decide)⟩

/-- C6 counterexample: `"UI_PORT"` is not in the declared field set, yet
`set_config_item` with persistence enabled mutates the snapshot and triggers
a settings-file write. -/
theorem c6_unknown_key_cex :
    "UI_PORT" ∉ get_config_keys cfg0 ∧
    (set_config_item true cfg0 "UI_PORT" (CVal.int 1) true).snapshot ≠ cfg0 ∧
    (set_config_item true cfg0 "UI_PORT" (CVal.int 1) true).writes = 1 := by
  decide

/-- C6 amended: for every key whose lower-cased form is not a current
attribute name, `set_config_item` leaves the snapshot unchanged, returns
without raising and never writes the settings file, even with
`save_settings=true`; the claim's guard must be on the lower-cased key, since
a key like `"UI_PORT"` is outside the declared set but passes the check. -/
theorem c6_unknown_key_noop (wo : Bool) (cfg : Snapshot) (key : String) (value : CVal)
    (save : Bool) (h : pyLower key ∉ get_config_keys cfg) :
    set_config_item wo cfg key value save = ⟨cfg, 0, false⟩ := by
  unfold set_config_item
  rw [if_neg h]

/-- C6 amended witness: an unknown key is a complete no-op on a fresh store. -/
theorem c6_unknown_key_noop_witness :
    pyLower "not_a_field" ∉ get_config_keys cfg0 ∧
    set_config_item true cfg0 "not_a_field" (CVal.int 7) true = ⟨cfg0, 0, false⟩ :=
  ⟨by decide, c6_unknown_key_noop true cfg0 "not_a_field" (CVal.int 7) true (by decide)⟩

/-- C10: `set_config_item` with a declared key and persistence enabled assigns
the attribute before attempting the settings-file write, so when the write
fails the exception propagates (`raised`) while the snapshot already holds the
newly assigned value — failed persistence does not roll the in-memory state
back. -/
theorem c10_set_item_not_atomic (cfg : Snapshot) (key : String) (value : CVal)
    (h : pyLower key ∈ get_config_keys cfg) :
    (set_config_item false cfg key value true).raised = true ∧
    (set_config_item false cfg key value true).writes = 1 ∧
    alookup (set_config_item false cfg key value true).snapshot key = some value := by
  unfold set_config_item
  rw [if_pos h]
  exact ⟨rfl, rfl, alookup_setattr_self cfg key value⟩

/-- C10 witness: a failing write during `set_config_item "ui_port"` raises
while the snapshot keeps the new port. -/
theorem c10_set_item_not_atomic_witness :
    pyLower "ui_port" ∈ get_config_keys cfg0 ∧
    (set_config_item false cfg0 "ui_port" (CVal.int 9090) true).raised = true ∧
    alookup (set_config_item false cfg0 "ui_port" (CVal.int 9090) true).snapshot "ui_port" =
      some (CVal.int 9090) := by
  have h := c10_set_item_not_atomic cfg0 "ui_port" (CVal.int 9090) (by decide)
  exact ⟨by decide, h.1, h.2.2⟩

/-- C7 counterexample: a table-data request with `start = -5` and `length = 0`
passes `RequestTableDataSchema` validation — no 400-class error is produced —
and the out-of-range values are carried through unchanged. -/
theorem c7_table_schema_cex :
    loadTableDataSchema ⟨some (-5), some 0, none, none, none⟩ =
      Except.ok ⟨-5, 0, "", "", none⟩ := rfl

/-- C7 amended: `RequestTableDataSchema` assigns `start` a default of 0 and
`length` a default of 10, but declares no range validator: a request is
rejected exactly when `order_direction` is present and outside
`{asc, desc}` — negative `start` and non-positive `length` are accepted and
passed through. -/
theorem c7_table_schema_amended (r : TableDataRequest) :
    ((∃ t, loadTableDataSchema r = Except.ok t) ↔
      (r.order_direction = none ∨ r.order_direction = some "asc" ∨
        r.order_direction = some "desc")) ∧
    (∀ t, loadTableDataSchema r = Except.ok t →
      t.start = r.start.getD 0 ∧ t.length = r.length.getD 10) := by
  unfold loadTableDataSchema
  cases hd : r.order_direction with
  | none =>
    refine ⟨by simp, fun t ht => ?_⟩
    cases ht
    exact ⟨rfl, rfl⟩
  | some d =>
    dsimp only
    by_cases hdd : d = "asc" ∨ d = "desc"
    · rw [if_pos hdd]
      refine ⟨?_, fun t ht => ?_⟩
      · simp only [Option.some.injEq]
        constructor
        · intro _
          rcases hdd with h | h
          · exact Or.inr (Or.inl (by rw [h]))
          · exact Or.inr (Or.inr (by rw [h]))
        · intro _
          exact ⟨_, rfl⟩
      · cases ht
        exact ⟨rfl, rfl⟩
    · rw [if_neg hdd]
      refine ⟨?_, fun t ht => by cases ht⟩
      constructor
      · rintro ⟨t, ht⟩
        cases ht
      · intro hor
        rcases hor with h | h | h
        · exact absurd h (Option.some_ne_none d)
        · exact absurd (Or.inl (Option.some.injEq d "asc" ▸ h)) hdd
        · exact absurd (Or.inr (Option.some.injEq d "desc" ▸ h)) hdd

/-- C8: an empty `id_list` fails `RequestTableUpdateByIdList` validation
(minimum length 1) before any collaborator operation is reached: each of the
four bulk plugin mutation handlers returns the 400-class envelope and makes
no collaborator call, whatever the collaborator would have answered. -/
theorem c8_empty_id_list_rejected (ce cd cu cr : List Int → Bool) :
    enable_plugins ce (some []) =
      (ApiResponse.badRequest [("id_list", "Shorter than minimum length 1.")], []) ∧
    disable_plugins cd (some []) =
      (ApiResponse.badRequest [("id_list", "Shorter than minimum length 1.")], []) ∧
    update_plugins cu (some []) =
      (ApiResponse.badRequest [("id_list", "Shorter than minimum length 1.")], []) ∧
    remove_plugins cr (some []) =
      (ApiResponse.badRequest [("id_list", "Shorter than minimum length 1.")], []) :=
  ⟨rfl, rfl, rfl, rfl⟩

/-- C9: on a validated (non-empty) id list, each bulk plugin mutation handler
returns exactly one aggregate outcome: success when the collaborator reports
success for the whole list, otherwise the single 500-class envelope with the
endpoint's fixed reason string — which carries no information about which ids
failed, the collaborator interface being a single boolean per batch. -/
theorem c9_bulk_aggregate_outcome (collab : List Int → Bool) (ids : List Int)
    (h : ids ≠ []) :
    enable_plugins collab (some ids) =
      ((if collab ids then ApiResponse.success
        else ApiResponse.internalError "Failed to enable the plugins by their IDs"), [ids]) ∧
    disable_plugins collab (some ids) =
      ((if collab ids then ApiResponse.success
        else ApiResponse.internalError "Failed to disable the plugins by their IDs"), [ids]) ∧
    update_plugins collab (some ids) =
      ((if collab ids then ApiResponse.success
        else ApiResponse.internalError "Failed to update the plugins by their IDs"), [ids]) ∧
    remove_plugins collab (some ids) =
      ((if collab ids then ApiResponse.success
        else ApiResponse.internalError "Failed to remove the plugins by their IDs"), [ids]) := by
  have hlen : 1 ≤ ids.length := by
    cases ids with
    | nil => exact absurd rfl h
    | cons a l => simp
  have hload : loadIdListSchema (some ids) = Except.ok ids := by
    unfold loadIdListSchema
    dsimp only
    rw [if_pos hlen]
  unfold enable_plugins disable_plugins update_plugins remove_plugins
  rw [hload]
  refine ⟨?_, ?_, ?_, ?_⟩ <;> (by_cases hc : collab ids = true <;> simp [hc])

/-- C9 witness: the spec scenario — bulk-enable `{id_list: [1,2,3]}` where
id 2 does not exist in the collaborator store, so the collaborator reports
overall failure — produces the single 500-class envelope with the fixed
reason string and no per-id detail. -/
theorem c9_bulk_aggregate_outcome_witness :
    enable_plugins (fun l => !(l.contains 2)) (some [1, 2, 3]) =
      (ApiResponse.internalError "Failed to enable the plugins by their IDs", [[1, 2, 3]]) := by
  have h := (c9_bulk_aggregate_outcome (fun l => !(l.contains 2)) [1, 2, 3] (by decide)).1
  rw [h]
  decide

/-- C7 amended witness: the request with `start = -5`, `length = 0` loads
successfully and keeps the out-of-range values. -/
theorem c7_table_schema_amended_witness :
    (∃ t, loadTableDataSchema ⟨some (-5), some 0, none, none, none⟩ = Except.ok t) ∧
    ((-5 : Int) = (some (-5 : Int)).getD 0 ∧ (0 : Int) = (some (0 : Int)).getD 10) := by
  have h := c7_table_schema_amended ⟨some (-5), some 0, none, none, none⟩
  refine ⟨h.1.mpr (Or.inl rfl), ?_⟩
  have h2 := h.2 ⟨-5, 0, "", "", none⟩ rfl
  exact ⟨h2.1.symm, h2.2.symm⟩
